import Mathlib

/-
  Verification of the profile-manager Profile Store & Activation Engine
  (src/pm.py) against its specification.

  Shallow embedding notes:
  - Database rows become Lean structures; the sqlite store becomes a
    `Store` holding the two tables as lists in insertion order.
  - `datetime.now()` and interactive `input(...)` prompts are modelled as
    explicit parameters (`now : Int`, `Prompts`).
  - Python exceptions become `Except` results carrying the store state at
    the moment the exception escapes.
  - peewee 3 semantics used by the source and mirrored here:
    `CharField()` columns are NOT NULL with no default, so
    `Model.create(**res)` with any of them missing from the insert dict
    fails with `IntegrityError` and inserts no row; `Database.init`
    first closes the connection if one is open; `Database.connect()`
    on an already-open connection raises
    `OperationalError("Connection already opened.")`, and otherwise
    `sqlite3.connect` creates a missing database file only when its
    parent directory exists, else raises
    `OperationalError("unable to open database file")`.
-/

namespace PM

/-- A row of the `AWSCredential` table (class AWSCredential in src/pm.py):
fields profile, profile_type, key, secret, region (CharField),
created, last_activated (TimestampField, held as Int), is_active
(BooleanField). -/
structure AWSCredential where
  profile : String
  profile_type : String
  key : String
  secret : String
  region : String
  created : Int
  last_activated : Int
  is_active : Bool
deriving Repr, DecidableEq

/-- A row of the `Audit` table (class Audit in src/pm.py): timestamp,
profile, profile_type, action. -/
structure Audit where
  timestamp : Int
  profile : String
  profile_type : String
  action : String
deriving Repr, DecidableEq

/-- The persistent store: the two tables, rows in insertion order. -/
structure Store where
  profiles : List AWSCredential
  audits : List Audit
deriving Repr, DecidableEq

/-- A store whose schema was just created: both tables empty. -/
def freshStore : Store := ⟨[], []⟩

/-- Python-level errors that the source can raise on these paths. -/
inductive PMError where
  /-- sqlite NOT NULL violation surfaced by peewee when the insert dict
  is missing a CharField column. -/
  | integrityError
  /-- Python KeyError on a dict lookup, carrying the missing key. -/
  | keyError (k : String)
  /-- Named by the spec's error taxonomy; no such class exists anywhere
  in src/pm.py. Present in the model only so that its absence from the
  code's behaviour can be stated. -/
  | unsupportedPlatformError
deriving Repr, DecidableEq

/-- The values returned by the four interactive `input(...)` prompts in
`ProfileManager.add`, one per potentially-missing field. -/
structure Prompts where
  profile : String
  key : String
  secret : String
  region : String
deriving Repr, DecidableEq

/-- The `res` dict built by `ProfileManager.add` and passed to
`AWSCredential.create(**res)`: `is_active`, `last_activated`, `created`
and `profile_type` are always present; each of the four credential
fields is present (`some`) only when it was added by the prompt loop. -/
structure Res where
  is_active : Bool
  last_activated : Int
  created : Int
  profile_type : String
  profile : Option String
  key : Option String
  secret : Option String
  region : Option String
deriving Repr, DecidableEq

/-- The dict-building prefix of `ProfileManager.add` (src/pm.py lines
58-74): fixed entries first, then the loop
`for k,v in {...}.items(): if v == None: res[k] = input(prompts[k])`.
A field whose argument was supplied (not None) is never written into
`res`; a field whose argument was None gets the prompted value. -/
def buildRes (now : Int) (profile key secret region : Option String)
    (inp : Prompts) : Res :=
  { is_active := false
    last_activated := -1
    created := now
    profile_type := "AWS"
    profile := match profile with
      | none => some inp.profile
      | some _ => none
    key := match key with
      | none => some inp.key
      | some _ => none
    secret := match secret with
      | none => some inp.secret
      | some _ => none
    region := match region with
      | none => some inp.region
      | some _ => none }

/-- `AWSCredential.create(**res)`: the four CharField columns are NOT
NULL with no default, so the insert succeeds only when `res` carries all
of them; otherwise peewee raises IntegrityError and no row is inserted.
On success the new row is appended to the table. -/
def credentialCreate (res : Res) (s : Store) :
    Except PMError (AWSCredential × Store) :=
  match res.profile, res.key, res.secret, res.region with
  | some p, some k, some sec, some r =>
      let row : AWSCredential :=
        ⟨p, res.profile_type, k, sec, r, res.created, res.last_activated,
          res.is_active⟩
      .ok (row, { s with profiles := s.profiles ++ [row] })
  | _, _, _, _ => .error .integrityError

/-- `audit(timestamp, profile, action, type)` (src/pm.py lines 111-114):
appends one row to the Audit table. -/
def auditRecord (timestamp : Int) (profile : String) (action : String)
    (ty : String) (s : Store) : Store :=
  { s with audits := s.audits ++ [⟨timestamp, profile, ty, action⟩] }

/-- `ProfileManager.add` (src/pm.py lines 54-77): build `res`, call
`AWSCredential.create(**res)` (the subsequent `new.save()` re-saves the
same row and changes nothing), then
`audit(res['created'], res['profile'], 'CREATE_PROFILE', 'AWS')` —
`res['profile']` raises KeyError when the profile argument was supplied,
since the loop never put it into `res`. Errors carry the store as it
stands when the exception escapes. -/
def ProfileManager.add (profile key secret region : Option String)
    (inp : Prompts) (now : Int) (s : Store) :
    Except (PMError × Store) (String × Store) :=
  let res := buildRes now profile key secret region inp
  match credentialCreate res s with
  | .error e => .error (e, s)
  | .ok (_new, s1) =>
      match res.profile with
      | none => .error (.keyError "profile", s1)
      | some p => .ok ("add", auditRecord res.created p "CREATE_PROFILE" "AWS" s1)

/-- `ProfileManager.set` (src/pm.py lines 29-33): the body is
`return profile`. No query, no update, no audit record. -/
def ProfileManager.set (profile : String) (s : Store) : String × Store :=
  (profile, s)

/-- `ProfileManager.unset` (src/pm.py lines 35-39): the body is
`return 'unset'`. No query, no update, no audit record. -/
def ProfileManager.unset (s : Store) : String × Store :=
  ("unset", s)

/-- `ProfileManager.rm` (src/pm.py lines 79-83): the body is
`return 'rm'`. No query, no delete, no audit record. -/
def ProfileManager.rm (profile : String) (s : Store) : String × Store :=
  ("rm", s)

/-- First profile row with the given name, if any (the repository's
find-by-name query over the table). -/
def find_by_name (name : String) (s : Store) : Option AWSCredential :=
  s.profiles.find? (fun p => p.profile == name)

/-- Number of rows with `is_active = true`. -/
def countActive (s : Store) : Nat :=
  (s.profiles.filter (fun p => p.is_active)).length

/-- Number of audit rows with the given profile name and action. -/
def countEventsFor (name action : String) (s : Store) : Nat :=
  (s.audits.filter (fun a => a.profile == name && a.action == action)).length

/-- One public CLI operation, with the external inputs (prompt answers,
clock) an `add` call consumes. -/
inductive Op where
  | add (profile key secret region : Option String) (inp : Prompts) (now : Int)
  | set (profile : String)
  | unset
  | rm (profile : String)
deriving Repr

/-- Effect of one public operation on the durable store. A Python
exception escapes to the CLI layer; the store keeps whatever had been
committed when it escaped. -/
def step (o : Op) (s : Store) : Store :=
  match o with
  | .add p k sec r inp now =>
      match ProfileManager.add p k sec r inp now s with
      | .ok (_, s1) => s1
      | .error (_, s1) => s1
  | .set p => (ProfileManager.set p s).2
  | .unset => (ProfileManager.unset s).2
  | .rm p => (ProfileManager.rm p s).2

/-- Store state after a sequence of public operations. -/
def run (ops : List Op) (s : Store) : Store :=
  ops.foldl (fun s o => step o s) s

/- ------------------------------------------------------------------
   Path resolution and database lifecycle (src/pm.py lines 120-159)
   ------------------------------------------------------------------ -/

/-- The platform-default dict `p` in `resolve_user_path` (src/pm.py lines
131-136), keyed by `platform.system()`. The Windows value is the literal
Python string (no `%` formatting happens in a plain string literal). -/
def platformDefaults : String → Option String
  | "Linux" => some "~/.profile-manager/"
  | "Darwin" => some "~/.profile-manager/"
  | "Windows" => some "%%userprofile%%\\AppData\\Local\\profile-manager\\"
  | _ => none

/-- `resolve_user_path` (src/pm.py lines 120-138), returning the value it
stores into `ROOT_PATH`. `envVal` is `os.getenv('PROFILE_MANAGER_PATH')`
(`none` when unset); `if custom_path:` is Python truthiness, so the
override is taken only when set AND non-empty. Otherwise
`p[platform.system()]` raises KeyError for an unlisted platform. -/
def resolve_user_path (envVal : Option String) (sysName : String) :
    Except PMError String :=
  match envVal with
  | some v =>
      if v = "" then
        match platformDefaults sysName with
        | some d => .ok d
        | none => .error (.keyError sysName)
      else .ok v
  | none =>
      match platformDefaults sysName with
      | some d => .ok d
      | none => .error (.keyError sysName)

/-- `db_path = '...'.format(ROOT_PATH)` in `check_db` (src/pm.py line
145): plain string concatenation. -/
def dbPath (rootPath : String) : String :=
  rootPath ++ "profile-manager.sqlite"

/-- Observable side effects of the database lifecycle functions. The
source never performs a directory-creation effect; the constructor
exists so that its absence can be stated. -/
inductive DbEffect where
  | makedirs (path : String)
  | dbInit (path : String) (journal_mode : String)
  | dbConnect
  | createTables (tables : List String)
deriving Repr, DecidableEq

/-- True exactly on a directory-creation effect. -/
def isMakedirs : DbEffect → Bool
  | .makedirs _ => true
  | _ => false

/-- peewee errors on the lifecycle path. -/
inductive DbError where
  | operationalError (msg : String)
deriving Repr, DecidableEq

/-- The global peewee `DB` handle: whether a connection is open, and the
path it was last initialized with. -/
structure DbConn where
  connected : Bool
  initPath : Option String
deriving Repr, DecidableEq

/-- A handle that has never been initialized or connected. -/
def freshConn : DbConn := ⟨false, none⟩

/-- `DB.init(db_path, pragmas=...)`: peewee 3 `Database.init` first
closes the connection if one is open (`if not self.is_closed():
self.close()`), then stores the new path and pragmas. -/
def dbInit (path : String) (c : DbConn) : DbConn :=
  { c with connected := false, initPath := some path }

/-- `DB.connect()` with the default `reuse_if_open=False`: raises
OperationalError when the connection is already open; otherwise
`sqlite3.connect` opens the database file, creating it when absent —
but only when that is possible (`canOpen`: the file exists or its
parent directory does); a missing parent directory raises
OperationalError. -/
def dbConnect (canOpen : Bool) (c : DbConn) : Except DbError DbConn :=
  if c.connected then .error (.operationalError "Connection already opened.")
  else if canOpen then .ok { c with connected := true }
  else .error (.operationalError "unable to open database file")

/-- `make_db` (src/pm.py lines 153-159): init with the wal pragma,
connect, create both tables. No directory creation of its own — sqlite
creates the file at connect time only if the parent directory already
exists. Returns the outcome and the effect trace. -/
def make_db (db_path : String) (canOpen : Bool) (c : DbConn) :
    (Except DbError DbConn) × List DbEffect :=
  let c1 := dbInit db_path c
  match dbConnect canOpen c1 with
  | .error e => (.error e, [.dbInit db_path "wal", .dbConnect])
  | .ok c2 =>
      (.ok c2,
       [.dbInit db_path "wal", .dbConnect,
        .createTables ["AWSCredential", "Audit"]])

/-- `check_db` (src/pm.py lines 140-151): compute `db_path`; if the file
does not exist, call `make_db` (which already inits and connects); then
unconditionally `DB.init` (closing any connection `make_db` opened) and
`DB.connect` again. `dirExists` says whether the parent directory of
`db_path` is present; a connect can succeed iff the file exists already
or that directory does. -/
def check_db (root_path : String) (dirExists : Bool)
    (fileExists : String → Bool) (c : DbConn) :
    (Except DbError DbConn) × List DbEffect :=
  let db_path := dbPath root_path
  let canOpen := fileExists db_path || dirExists
  if fileExists db_path then
    let c1 := dbInit db_path c
    match dbConnect canOpen c1 with
    | .error e => (.error e, [.dbInit db_path "wal", .dbConnect])
    | .ok c2 => (.ok c2, [.dbInit db_path "wal", .dbConnect])
  else
    match make_db db_path canOpen c with
    | (.error e, effs) => (.error e, effs)
    | (.ok c1, effs) =>
        let c2 := dbInit db_path c1
        match dbConnect canOpen c2 with
        | .error e => (.error e, effs ++ [.dbInit db_path "wal", .dbConnect])
        | .ok c3 => (.ok c3, effs ++ [.dbInit db_path "wal", .dbConnect])

/- ------------------------------------------------------------------
   Helper lemmas
   ------------------------------------------------------------------ -/

/-- Every profile row in the store is inactive. -/
def allInactive (s : Store) : Prop :=
  ∀ p ∈ s.profiles, p.is_active = false

theorem credentialCreate_ok_shape {res : Res} {s : Store}
    {row : AWSCredential} {s1 : Store}
    (h : credentialCreate res s = .ok (row, s1)) :
    row.is_active = res.is_active ∧ row.created = res.created ∧
    row.last_activated = res.last_activated ∧
    res.profile = some row.profile ∧
    s1.profiles = s.profiles ++ [row] ∧ s1.audits = s.audits := by
  cases hp : res.profile <;> cases hk : res.key <;>
    cases hsec : res.secret <;> cases hr : res.region <;>
    simp [credentialCreate, hp, hk, hsec, hr] at h
  obtain ⟨hrow, hs1⟩ := h
  subst hrow
  subst hs1
  simp

theorem add_ok_shape {profile key secret region : Option String}
    {inp : Prompts} {now : Int} {s : Store} {r : String} {s1 : Store}
    (h : ProfileManager.add profile key secret region inp now s = .ok (r, s1)) :
    ∃ row : AWSCredential, row.created = now ∧ row.is_active = false ∧
      row.last_activated = -1 ∧ s1.profiles = s.profiles ++ [row] ∧
      s1.audits = s.audits ++ [⟨now, row.profile, "AWS", "CREATE_PROFILE"⟩] := by
  simp only [ProfileManager.add] at h
  split at h
  · exact absurd h (by simp)
  · rename_i new s2 heq
    split at h
    · exact absurd h (by simp)
    · rename_i p hp
      obtain ⟨hact, hcre, hlast, hprof, hprofiles, haudits⟩ :=
        credentialCreate_ok_shape heq
      rw [hp] at hprof
      simp only [Except.ok.injEq, Prod.mk.injEq] at h
      obtain ⟨-, hs1⟩ := h
      refine ⟨new, ?_, ?_, ?_, ?_, ?_⟩
      · rw [hcre]; rfl
      · rw [hact]; rfl
      · rw [hlast]; rfl
      · rw [← hs1]; simpa [auditRecord] using hprofiles
      · rw [← hs1]
        injection hprof with hpn
        subst hpn
        simp [auditRecord, haudits, buildRes]

theorem add_error_shape {profile key secret region : Option String}
    {inp : Prompts} {now : Int} {s : Store} {e : PMError} {s1 : Store}
    (h : ProfileManager.add profile key secret region inp now s
          = .error (e, s1)) :
    s1.audits = s.audits ∧
    (s1.profiles = s.profiles ∨
      ∃ row : AWSCredential, row.is_active = false ∧
        s1.profiles = s.profiles ++ [row]) := by
  simp only [ProfileManager.add] at h
  split at h
  · simp only [Except.error.injEq, Prod.mk.injEq] at h
    obtain ⟨-, hs1⟩ := h
    subst hs1
    exact ⟨rfl, Or.inl rfl⟩
  · rename_i new s2 heq
    split at h
    · simp only [Except.error.injEq, Prod.mk.injEq] at h
      obtain ⟨-, hs1⟩ := h
      subst hs1
      obtain ⟨hact, -, -, -, hprofiles, haudits⟩ :=
        credentialCreate_ok_shape heq
      exact ⟨haudits, Or.inr ⟨new, by rw [hact]; rfl, hprofiles⟩⟩
    · exact absurd h (by simp)

theorem step_allInactive (o : Op) {s : Store} (h : allInactive s) :
    allInactive (step o s) := by
  cases o with
  | add p k sec r inp now =>
      simp only [step]
      cases hadd : ProfileManager.add p k sec r inp now s with
      | ok v =>
          obtain ⟨rr, s1⟩ := v
          obtain ⟨row, -, hrow, -, hprofiles, -⟩ := add_ok_shape hadd
          intro q hq
          simp only [hprofiles, List.mem_append, List.mem_singleton] at hq
          rcases hq with hq | hq
          · exact h q hq
          · subst hq; exact hrow
      | error v =>
          obtain ⟨e, s1⟩ := v
          obtain ⟨-, hcase⟩ := add_error_shape hadd
          intro q hq
          rcases hcase with hsame | ⟨row, hrow, hprofiles⟩
          · exact h q (hsame ▸ hq)
          · simp only [hprofiles, List.mem_append, List.mem_singleton] at hq
            rcases hq with hq | hq
            · exact h q hq
            · subst hq; exact hrow
  | set p => exact h
  | unset => exact h
  | rm p => exact h

theorem run_allInactive (ops : List Op) (s : Store) (h : allInactive s) :
    allInactive (run ops s) := by
  induction ops generalizing s with
  | nil => exact h
  | cons o rest ih => exact ih (step o s) (step_allInactive o h)

theorem allInactive_countActive_zero {s : Store} (h : allInactive s) :
    countActive s = 0 := by
  unfold countActive
  rw [List.length_eq_zero, List.filter_eq_nil_iff]
  intro a ha
  simp [h a ha]

/- ------------------------------------------------------------------
   Claim theorems
   ------------------------------------------------------------------ -/

/-- C1: in every state reachable by any sequence of the public
operations (add, set, unset, rm) from a fresh store, at most one profile
row has `is_active = true`. (It holds because no operation ever sets the
flag: `add` always inserts `is_active = false` and `set`, `unset`, `rm`
do not touch the table, so every reachable state has zero active rows.) -/
theorem reachable_at_most_one_active (ops : List Op) :
    countActive (run ops freshStore) ≤ 1 := by
  have hfresh : allInactive freshStore := by
    intro p hp
    simp [freshStore] at hp
  rw [allInactive_countActive_zero (run_allInactive ops freshStore hfresh)]
  exact Nat.zero_le 1

/-- C7: every successful `add` inserts exactly one profile row with
`created = now`, `is_active = false`, and `last_activated = -1` (the
"never" sentinel), and appends exactly one audit row with action
CREATE_PROFILE and the new row's profile name; a failed `add` appends
zero audit rows. -/
theorem add_create_fields_and_audit (profile key secret region : Option String)
    (inp : Prompts) (now : Int) (s : Store) :
    (∀ r s1, ProfileManager.add profile key secret region inp now s = .ok (r, s1) →
        ∃ row : AWSCredential, row.created = now ∧ row.is_active = false ∧
          row.last_activated = -1 ∧ s1.profiles = s.profiles ++ [row] ∧
          s1.audits = s.audits ++ [⟨now, row.profile, "AWS", "CREATE_PROFILE"⟩]) ∧
    (∀ e s1, ProfileManager.add profile key secret region inp now s
          = .error (e, s1) → s1.audits = s.audits) :=
  ⟨fun _ _ h => add_ok_shape h, fun _ _ h => (add_error_shape h).1⟩

/-- C7 witness: a fully-prompted `add` on the fresh store at time 100
succeeds and exhibits the stated row and audit entry. -/
theorem add_create_fields_and_audit_witness :
    ∃ row : AWSCredential, row.created = 100 ∧ row.is_active = false ∧
      row.last_activated = -1 ∧
      (Store.mk [⟨"work", "AWS", "K", "S", "us-east-1", 100, -1, false⟩]
          [⟨100, "work", "AWS", "CREATE_PROFILE"⟩]).profiles
        = freshStore.profiles ++ [row] ∧
      (Store.mk [⟨"work", "AWS", "K", "S", "us-east-1", 100, -1, false⟩]
          [⟨100, "work", "AWS", "CREATE_PROFILE"⟩]).audits
        = freshStore.audits ++ [⟨100, row.profile, "AWS", "CREATE_PROFILE"⟩] :=
  (add_create_fields_and_audit none none none none
      ⟨"work", "K", "S", "us-east-1"⟩ 100 freshStore).1 "add"
    (Store.mk [⟨"work", "AWS", "K", "S", "us-east-1", 100, -1, false⟩]
      [⟨100, "work", "AWS", "CREATE_PROFILE"⟩]) rfl

/-- C9: a field passed as a non-None argument to `add` is never written
into the `res` dict handed to `AWSCredential.create`; only the fields
whose arguments were None appear, holding the prompted values. -/
theorem add_insert_omits_supplied_fields (profile key secret region : Option String)
    (inp : Prompts) (now : Int) :
    (profile.isSome → (buildRes now profile key secret region inp).profile = none) ∧
    (key.isSome → (buildRes now profile key secret region inp).key = none) ∧
    (secret.isSome → (buildRes now profile key secret region inp).secret = none) ∧
    (region.isSome → (buildRes now profile key secret region inp).region = none) ∧
    (profile = none →
      (buildRes now profile key secret region inp).profile = some inp.profile) ∧
    (key = none → (buildRes now profile key secret region inp).key = some inp.key) ∧
    (secret = none →
      (buildRes now profile key secret region inp).secret = some inp.secret) ∧
    (region = none →
      (buildRes now profile key secret region inp).region = some inp.region) := by
  cases profile <;> cases key <;> cases secret <;> cases region <;>
    simp [buildRes]

/-- C9 witness: a fully-argument-supplied call omits all four credential
fields from the insert dict, and a fully-prompted call takes the
prompted profile name. -/
theorem add_insert_omits_supplied_fields_witness :
    (buildRes 0 (some "w") (some "k") (some "s") (some "r")
        ⟨"a", "b", "c", "d"⟩).profile = none ∧
    (buildRes 0 (some "w") (some "k") (some "s") (some "r")
        ⟨"a", "b", "c", "d"⟩).key = none ∧
    (buildRes 0 (some "w") (some "k") (some "s") (some "r")
        ⟨"a", "b", "c", "d"⟩).secret = none ∧
    (buildRes 0 (some "w") (some "k") (some "s") (some "r")
        ⟨"a", "b", "c", "d"⟩).region = none ∧
    (buildRes 0 none none none none ⟨"a", "b", "c", "d"⟩).profile = some "a" :=
  ⟨(add_insert_omits_supplied_fields (some "w") (some "k") (some "s") (some "r")
      ⟨"a", "b", "c", "d"⟩ 0).1 rfl,
   (add_insert_omits_supplied_fields (some "w") (some "k") (some "s") (some "r")
      ⟨"a", "b", "c", "d"⟩ 0).2.1 rfl,
   (add_insert_omits_supplied_fields (some "w") (some "k") (some "s") (some "r")
      ⟨"a", "b", "c", "d"⟩ 0).2.2.1 rfl,
   (add_insert_omits_supplied_fields (some "w") (some "k") (some "s") (some "r")
      ⟨"a", "b", "c", "d"⟩ 0).2.2.2.1 rfl,
   (add_insert_omits_supplied_fields none none none none
      ⟨"a", "b", "c", "d"⟩ 0).2.2.2.2.1 rfl⟩

/-- A fully-prompted `add` of profile "work" at time 100. -/
def addWorkOp : Op :=
  .add none none none none ⟨"work", "K", "S", "us-east-1"⟩ 100

/-- A store holding one active profile "work" (such a state can sit in
the durable database file even though no public operation of the source
produces it). -/
def activeWorkStore : Store :=
  ⟨[⟨"work", "AWS", "K", "S", "us-east-1", 100, 200, true⟩], []⟩

/-- C2 evidence: `add` performs no uniqueness check. Adding "work" twice
succeeds both times, leaving two profile rows named "work" and two
CREATE_PROFILE audit events — the second call does not fail, does not
leave the table unchanged, and no DuplicateProfileError exists in the
code. -/
theorem duplicate_add_not_rejected :
    ((run [addWorkOp, addWorkOp] freshStore).profiles.filter
        (fun p => p.profile == "work")).length = 2 ∧
    countEventsFor "work" "CREATE_PROFILE" (run [addWorkOp, addWorkOp] freshStore) = 2 ∧
    (∃ s1, ProfileManager.add none none none none ⟨"work", "K", "S", "us-east-1"⟩
        100 (run [addWorkOp] freshStore) = .ok ("add", s1)) :=
  ⟨by decide, by decide, ⟨_, rfl⟩⟩

/-- C3 evidence: `set` is a stub. On a store containing the inactive
profile "work", `set "work"` returns the name and leaves the store
untouched: the row stays exactly as created (`is_active = false`,
`last_activated = -1`), no ACTIVATE_PROFILE event is recorded, and
`set` on an absent name returns that name instead of failing. -/
theorem set_stub_behavior :
    ProfileManager.set "work" (run [addWorkOp] freshStore)
      = ("work", run [addWorkOp] freshStore) ∧
    find_by_name "work" (ProfileManager.set "work" (run [addWorkOp] freshStore)).2
      = some ⟨"work", "AWS", "K", "S", "us-east-1", 100, -1, false⟩ ∧
    countActive (ProfileManager.set "work" (run [addWorkOp] freshStore)).2 = 0 ∧
    countEventsFor "work" "ACTIVATE_PROFILE"
      (ProfileManager.set "work" (run [addWorkOp] freshStore)).2 = 0 ∧
    ProfileManager.set "ghost" freshStore = ("ghost", freshStore) :=
  ⟨rfl, by decide, by decide, by decide, rfl⟩

/-- C4 evidence: `rm` is a stub. `rm "work"` returns the string "rm" and
leaves the store untouched, so `find_by_name "work"` still finds the
row, and `rm` on an absent name returns "rm" instead of failing with
ProfileNotFoundError. -/
theorem rm_stub_behavior :
    ProfileManager.rm "work" (run [addWorkOp] freshStore)
      = ("rm", run [addWorkOp] freshStore) ∧
    find_by_name "work" (ProfileManager.rm "work" (run [addWorkOp] freshStore)).2
      = some ⟨"work", "AWS", "K", "S", "us-east-1", 100, -1, false⟩ ∧
    ProfileManager.rm "ghost" freshStore = ("rm", freshStore) :=
  ⟨rfl, by decide, rfl⟩

/-- C8 evidence: `unset` is a stub. On a store whose "work" row is
active it returns the string "unset" and changes nothing: the row stays
active and no DEACTIVATE_PROFILE event is recorded. (The second of two
consecutive calls is indeed a no-op appending no event — but only
because every call is.) -/
theorem unset_stub_behavior :
    ProfileManager.unset activeWorkStore = ("unset", activeWorkStore) ∧
    countActive (ProfileManager.unset activeWorkStore).2 = 1 ∧
    countEventsFor "work" "DEACTIVATE_PROFILE"
      (ProfileManager.unset activeWorkStore).2 = 0 ∧
    (ProfileManager.unset (ProfileManager.unset activeWorkStore).2).2
      = (ProfileManager.unset activeWorkStore).2 :=
  ⟨rfl, by decide, by decide, rfl⟩

/-- C5 evidence: the lifecycle emits no directory-creation effect on any
path. With the parent directory present, a first run does work as the
claim's remaining conjuncts say: the file and both tables are created
and the call ends with an open WAL-mode connection (the second `DB.init`
closes the connection `make_db` opened and `DB.connect` reopens it), and
reopening an existing file succeeds without re-creating the schema. But
when the parent directory is missing, the first run fails at
`sqlite3.connect` instead of creating the directories the claim
promises. -/
theorem check_db_no_directory_creation :
    (check_db "~/.profile-manager/" true (fun _ => false) freshConn).1
      = .ok ⟨true, some "~/.profile-manager/profile-manager.sqlite"⟩ ∧
    DbEffect.createTables ["AWSCredential", "Audit"]
      ∈ (check_db "~/.profile-manager/" true (fun _ => false) freshConn).2 ∧
    DbEffect.dbInit "~/.profile-manager/profile-manager.sqlite" "wal"
      ∈ (check_db "~/.profile-manager/" true (fun _ => false) freshConn).2 ∧
    (∀ e ∈ (check_db "~/.profile-manager/" true (fun _ => false) freshConn).2,
        isMakedirs e = false) ∧
    (check_db "~/.profile-manager/" false (fun _ => false) freshConn).1
      = .error (.operationalError "unable to open database file") ∧
    (∀ e ∈ (check_db "~/.profile-manager/" false (fun _ => false) freshConn).2,
        isMakedirs e = false) ∧
    (check_db "~/.profile-manager/" true (fun _ => true) freshConn).1
      = .ok ⟨true, some "~/.profile-manager/profile-manager.sqlite"⟩ ∧
    DbEffect.dbInit "~/.profile-manager/profile-manager.sqlite" "wal"
      ∈ (check_db "~/.profile-manager/" true (fun _ => true) freshConn).2 ∧
    (∀ e ∈ (check_db "~/.profile-manager/" true (fun _ => true) freshConn).2,
        e ≠ DbEffect.createTables ["AWSCredential", "Audit"]
          ∧ isMakedirs e = false) :=
  ⟨rfl, by decide, by decide, by decide, rfl, by decide, rfl, by decide,
   by decide⟩

/-- C6 counterexample: the claim "returns the PROFILE_MANAGER_PATH value
verbatim whenever it is set" fails when the variable is set to the empty
string (`if custom_path:` is falsy), where the platform default is
returned instead; and on an unlisted platform the failure is a KeyError,
not the spec's UnsupportedPlatformError. -/
theorem resolve_user_path_claim_counterexample :
    resolve_user_path (some "") "Linux" = .ok "~/.profile-manager/" ∧
    resolve_user_path (some "") "Linux" ≠ .ok "" ∧
    resolve_user_path none "SunOS" = .error (.keyError "SunOS") ∧
    resolve_user_path none "SunOS" ≠ .error .unsupportedPlatformError := by
  refine ⟨rfl, fun h => ?_, rfl, fun h => ?_⟩
  · exact absurd (Except.ok.inj h) (by decide)
  · exact absurd (Except.error.inj h) (by decide)

/-- C6 (amended): `resolve_user_path` returns the environment value
verbatim whenever it is set to a non-empty string; when it is unset or
set to the empty string it returns the fixed per-platform default, and
on a platform with no configured default it fails with a KeyError from
the dict lookup. -/
theorem resolve_user_path_amended (envVal : Option String) (sysName : String) :
    (∀ v, envVal = some v → v ≠ "" →
        resolve_user_path envVal sysName = .ok v) ∧
    ((envVal = none ∨ envVal = some "") →
        resolve_user_path envVal sysName =
          match platformDefaults sysName with
          | some d => .ok d
          | none => .error (.keyError sysName)) := by
  constructor
  · intro v hv hne
    subst hv
    simp [resolve_user_path, hne]
  · rintro (h | h) <;> subst h <;> simp [resolve_user_path]

/-- C6 witness: a non-empty override is returned verbatim, and with no
override the Linux default is returned. -/
theorem resolve_user_path_amended_witness :
    resolve_user_path (some "/tmp/custom/") "Linux" = .ok "/tmp/custom/" ∧
    resolve_user_path none "Linux" = .ok "~/.profile-manager/" :=
  ⟨(resolve_user_path_amended (some "/tmp/custom/") "Linux").1 "/tmp/custom/"
      rfl (by decide),
   (resolve_user_path_amended none "Linux").2 (Or.inl rfl)⟩

/-- C10: with no PROFILE_MANAGER_PATH override, on Linux or Darwin the
root is the literal string "~/.profile-manager/" — no home-directory
expansion — and `check_db` therefore computes the database path as the
literal "~/.profile-manager/profile-manager.sqlite". -/
theorem default_unix_path_literal (sysName : String)
    (h : sysName = "Linux" ∨ sysName = "Darwin") :
    resolve_user_path none sysName = .ok "~/.profile-manager/" ∧
    dbPath "~/.profile-manager/" = "~/.profile-manager/profile-manager.sqlite" := by
  rcases h with h | h <;> subst h <;> exact ⟨rfl, rfl⟩

/-- C10 witness: instantiated on Linux. -/
theorem default_unix_path_literal_witness :
    resolve_user_path none "Linux" = .ok "~/.profile-manager/" ∧
    dbPath "~/.profile-manager/" = "~/.profile-manager/profile-manager.sqlite" :=
  default_unix_path_literal "Linux" (Or.inl rfl)

end PM
